import Mathlib

/-!
Shallow embedding of `src/trends_collector.py` (class `TrendsCollector`).

Python dictionaries with optional keys are modelled as structures with
`Option` fields; a key that may be absent from a produced dictionary is an
`Option` field that is `none` exactly when the Python code would not set the
key.  Exceptions raised by the external API client are modelled by passing
the call's outcome as `Except String RawResponse` (the Python `try`
converts any raised exception into the error-shaped result record).
`datetime.now().isoformat()` is modelled as an explicit `now : String`
argument.
-/

namespace TrendsCollector

/-- One entry of a trend item's `categories` list.  In the raw response it is
an arbitrary dictionary; the code only ever reads its `name` key, which may
be absent. -/
structure Category where
  name : Option String
  deriving DecidableEq, Repr, Inhabited

/-- One item of the raw response's `trending_searches` list: a dictionary
whose keys may each be absent. -/
structure RawTrend where
  query : Option String
  search_volume : Option Nat
  increase_percentage : Option Int
  active : Option Bool
  categories : Option (List Category)
  trend_breakdown : Option (List String)
  start_timestamp : Option Nat
  deriving DecidableEq, Repr, Inhabited

/-- The raw response dictionary returned by `GoogleSearch(params).get_dict()`
in `collect_trending_searches`; only the keys the code reads are modelled. -/
structure RawResponse where
  trending_searches : Option (List RawTrend)
  error : Option String
  deriving DecidableEq, Repr, Inhabited

/-- A normalized trend record, as built in the loop of
`collect_trending_searches` (lines 74-84 of the source). -/
structure TrendRecord where
  query : String
  search_volume : Nat
  increase_percentage : Int
  active : Bool
  categories : List Category
  related_queries : List String
  start_timestamp : Nat
  deriving DecidableEq, Repr, Inhabited

/-- The per-region result dictionary produced by
`collect_trending_searches`.  Keys that are set only on some paths are
`Option` fields (`trending_searches` is absent from the exception-branch
record; `note` is set only in the non-exception branch; `error` and
`api_error` are set only on the corresponding paths). -/
structure RegionTrendingResult where
  region_name : String
  region_code : String
  collection_time : String
  trending_searches : Option (List TrendRecord)
  source : String
  note : Option String
  error : Option String
  api_error : Option String
  deriving DecidableEq, Repr, Inhabited

/-- A configured region, `{name, code}` (both keys are accessed by direct
subscription in `collect_all_trends`, so they are required). -/
structure Region where
  name : String
  code : String
  deriving DecidableEq, Repr, Inhabited

/-- The `trending_searches` section of the configuration mapping. -/
structure TrendingSearchesCfg where
  enabled : Option Bool
  count : Option Nat
  deriving DecidableEq, Repr, Inhabited

/-- The settings mapping loaded from `config.yaml`.  `serpapi_key` is
validated in `__init__`; all other keys may be absent from the mapping. -/
structure Config where
  serpapi_key : String
  keywords : Option (List String)
  regions : Option (List Region)
  timeframe : Option String
  trending_searches : Option TrendingSearchesCfg
  output_file : Option String
  deriving DecidableEq, Repr, Inhabited

/-- `self.config.get('trending_searches', {}).get('count', 20)` (line 71). -/
def trendingCount (cfg : Config) : Nat :=
  match cfg.trending_searches with
  | none => 20
  | some t => t.count.getD 20

/-- `self.config.get('trending_searches', {}).get('enabled', False)`
(line 184). -/
def trendingEnabled (cfg : Config) : Bool :=
  match cfg.trending_searches with
  | none => false
  | some t => t.enabled.getD false

/-- The body of the per-item loop of `collect_trending_searches`
(lines 75-83): each missing field is replaced by its default. -/
def normalizeTrend (t : RawTrend) : TrendRecord :=
  { query := t.query.getD ""
    search_volume := t.search_volume.getD 0
    increase_percentage := t.increase_percentage.getD 0
    active := t.active.getD true
    categories := t.categories.getD []
    related_queries := t.trend_breakdown.getD []
    start_timestamp := t.start_timestamp.getD 0 }

/-- `collect_trending_searches` (lines 46-103).  The `fetch` argument is the
outcome of `GoogleSearch(params).get_dict()`: `Except.error e` models the
call raising an exception with message `e`, which the `except` clause
converts into the five-field error record. -/
def collect_trending_searches (cfg : Config) (fetch : Except String RawResponse)
    (region_code region_name now : String) : RegionTrendingResult :=
  match fetch with
  | .error e =>
      { region_name := region_name
        region_code := region_code
        collection_time := now
        trending_searches := none
        source := "SerpAPI Google Trends"
        note := none
        error := some e
        api_error := none }
  | .ok results =>
      match results.trending_searches with
      | some lst =>
          { region_name := region_name
            region_code := region_code
            collection_time := now
            trending_searches := some ((lst.take (trendingCount cfg)).map normalizeTrend)
            source := "SerpAPI Google Trends"
            note := some "Global trending searches (region-specific may not be available)"
            error := none
            api_error := none }
      | none =>
          { region_name := region_name
            region_code := region_code
            collection_time := now
            trending_searches := some []
            source := "SerpAPI Google Trends"
            note := some "Global trending searches (region-specific may not be available)"
            error := some "Brak danych w odpowiedzi SerpAPI"
            api_error := results.error }

/-- The `metadata` dictionary built in `collect_all_trends`
(lines 187-195). -/
structure Metadata where
  collection_time : String
  keywords : List String
  total_regions : Nat
  timeframe : String
  trending_searches_enabled : Bool
  source : String
  api_usage_note : String
  deriving DecidableEq, Repr, Inhabited

/-- The full output aggregate `all_data` of `collect_all_trends`. -/
structure CollectionRun where
  metadata : Metadata
  trending_searches_data : List RegionTrendingResult
  deriving DecidableEq, Repr, Inhabited

/-- `collect_all_trends` (lines 181-216).  `self.config['keywords']` and
`self.config['regions']` are direct subscriptions, so an absent key raises a
`KeyError`, modelled as the `Except.error` branches; all other configuration
reads use `.get` with defaults.  `fetch` gives, per region code, the outcome
of the API call made inside `collect_trending_searches`.  The `time.sleep`
pauses have no data effect and are not modelled. -/
def collect_all_trends (cfg : Config) (fetch : String → Except String RawResponse)
    (now : String) : Except String CollectionRun :=
  match cfg.keywords with
  | none => .error "KeyError: keywords"
  | some keywords =>
    match cfg.regions with
    | none => .error "KeyError: regions"
    | some regions =>
      .ok
        { metadata :=
            { collection_time := now
              keywords := keywords
              total_regions := regions.length
              timeframe := cfg.timeframe.getD "today 3-m"
              trending_searches_enabled := trendingEnabled cfg
              source := "SerpAPI Google Trends"
              api_usage_note := "Each request uses your SerpAPI quota" }
          trending_searches_data :=
            if trendingEnabled cfg then
              regions.map (fun r =>
                collect_trending_searches cfg (fetch r.code) r.code r.name now)
            else [] }

/-- One entry of `trending_queries` in the simplified output
(`create_simple_format`, lines 253-258). -/
structure SimpleQuery where
  query : String
  search_volume : Nat
  increase_percentage : Int
  category : String
  deriving DecidableEq, Repr, Inhabited

/-- One entry of `regions` in the simplified output (lines 246-250). -/
structure SimpleRegion where
  region_name : String
  region_code : String
  trending_queries : List SimpleQuery
  deriving DecidableEq, Repr, Inhabited

/-- The simplified output dictionary `simple_data` (lines 240-243). -/
structure SimpleRun where
  collection_time : String
  regions : List SimpleRegion
  deriving DecidableEq, Repr, Inhabited

/-- The `category` expression of line 257:
`trend.get('categories', [{}])[0].get('name', 'Unknown') if
trend.get('categories') else 'Unknown'` — an empty `categories` list is
falsy, so it yields `'Unknown'`; otherwise the first entry's `name` with
default `'Unknown'`. -/
def simpleCategory (cats : List Category) : String :=
  match cats with
  | [] => "Unknown"
  | c :: _ => c.name.getD "Unknown"

/-- The dictionary appended to `trending_queries` for one trend
(lines 253-258). -/
def simpleQueryOf (trend : TrendRecord) : SimpleQuery :=
  { query := trend.query
    search_volume := trend.search_volume
    increase_percentage := trend.increase_percentage
    category := simpleCategory trend.categories }

/-- The `region_trends` dictionary built for one region (lines 246-258).
`region_data.get('trending_searches', [])` is `Option.getD []`: an
exception-branch record, which has no `trending_searches` key, contributes
an empty `trending_queries` list. -/
def simpleRegionOf (region_data : RegionTrendingResult) : SimpleRegion :=
  { region_name := region_data.region_name
    region_code := region_data.region_code
    trending_queries := (region_data.trending_searches.getD []).map simpleQueryOf }

/-- `create_simple_format` (lines 238-262). -/
def create_simple_format (data : CollectionRun) : SimpleRun :=
  { collection_time := data.metadata.collection_time
    regions := data.trending_searches_data.map simpleRegionOf }

/-- Python `str.replace(pat, rep)` on character lists, for a non-empty
pattern: scan left to right, replacing each (non-overlapping) occurrence of
`pat` by `rep`.  The `fuel` argument is only a structural-recursion bound;
`replaceChars` supplies the input's length, which is always enough because
every step consumes at least one character. -/
def replaceAux (pat rep : List Char) : Nat → List Char → List Char
  | _, [] => []
  | 0, c :: cs => c :: cs
  | fuel + 1, c :: cs =>
    if pat.isPrefixOf (c :: cs) then
      rep ++ replaceAux pat rep fuel (cs.drop (pat.length - 1))
    else
      c :: replaceAux pat rep fuel cs

/-- Python `s.replace(pat, rep)` for a non-empty `pat` (the source's only
call site uses the fixed pattern `'.json'`). -/
def replaceChars (pat rep l : List Char) : List Char :=
  replaceAux pat rep l.length l

/-- `filename.replace('.json', '_simple.json')` (line 229): the simplified
output path derived in `save_to_json`. -/
def simple_filename (filename : List Char) : List Char :=
  replaceChars ".json".toList "_simple.json".toList filename

/-- `filename = self.config.get('output_file', 'trends_data.json')`
(line 220): the full output path used when `save_to_json` is called with no
explicit filename, as `run` does. -/
def output_filename (cfg : Config) : String :=
  cfg.output_file.getD "trends_data.json"

/-- One element of a timeline data point's `values` list; the code reads
only its `value` key, defaulting to `0`. -/
structure TimelineValue where
  value : Option Int
  deriving DecidableEq, Repr, Inhabited

/-- One element of `results['interest_over_time']['timeline_data']`. -/
structure TimelinePoint where
  date : Option String
  values : Option (List TimelineValue)
  deriving DecidableEq, Repr, Inhabited

/-- The `interest_over_time` section of the raw response; the code reads
only `timeline_data` (with default `[]`). -/
structure InterestSection where
  timeline_data : Option (List TimelinePoint)
  deriving DecidableEq, Repr, Inhabited

/-- The raw response dictionary read by `collect_interest_over_time`; the
`related_topics` / `related_queries` sub-mappings are dictionaries keyed by
keyword whose payloads are copied through verbatim, modelled as association
lists with `String` payloads. -/
structure InterestResponse where
  interest_over_time : Option InterestSection
  related_topics : Option (List (String × String))
  related_queries : Option (List (String × String))
  deriving DecidableEq, Repr, Inhabited

/-- The result dictionary of `collect_interest_over_time`.  As with
`RegionTrendingResult`, keys absent from the exception-branch record are
`Option` fields. -/
structure InterestResult where
  region_name : String
  region_code : String
  collection_time : String
  keywords : Option (List String)
  timeframe : Option String
  interest_over_time : Option (List (String × List (String × Int)))
  related_topics : Option (List (String × String))
  related_queries : Option (List (String × String))
  source : String
  error : Option String
  deriving DecidableEq, Repr, Inhabited

/-- Python dictionary assignment `d[k] = v` on an insertion-ordered
association list: updating an existing key keeps its position, a new key is
appended. -/
def dictInsert {α : Type} (d : List (String × α)) (k : String) (v : α) :
    List (String × α) :=
  if (d.map Prod.fst).contains k then
    d.map (fun p => if p.1 = k then (k, v) else p)
  else
    d ++ [(k, v)]

/-- The inner loop of lines 152-154:
`for i, keyword in enumerate(keywords): if i < len(values):
d[keyword] = values[i].get('value', 0)`, carried out from index `i` with
accumulator `d`. -/
def interestInnerGo (values : List TimelineValue) :
    Nat → List String → List (String × Int) → List (String × Int)
  | _, [], d => d
  | i, keyword :: rest, d =>
    if h : i < values.length then
      interestInnerGo values (i + 1) rest
        (dictInsert d keyword ((values.get ⟨i, h⟩).value.getD 0))
    else
      interestInnerGo values (i + 1) rest d

/-- The per-date value dictionary built by lines 151-154. -/
def interestInner (keywords : List String) (values : List TimelineValue) :
    List (String × Int) :=
  interestInnerGo values 0 keywords []

/-- The timeline loop of lines 146-154: each data point with a truthy
(non-empty) `date` string and a truthy (non-empty) `values` list contributes
one entry keyed by its date string. -/
def interestOuter (keywords : List String) (timeline : List TimelinePoint) :
    List (String × List (String × Int)) :=
  timeline.foldl (fun out p =>
    let date_str := p.date.getD ""
    let values := p.values.getD []
    if date_str ≠ "" ∧ values ≠ [] then
      dictInsert out date_str (interestInner keywords values)
    else out) []

/-- The copy loops of lines 157-166: for each configured keyword present in
the response's sub-mapping, copy its payload through verbatim. -/
def copyRelated (keywords : List String) (m : List (String × String)) :
    List (String × String) :=
  keywords.foldl (fun d keyword =>
    match m.lookup keyword with
    | some v => dictInsert d keyword v
    | none => d) []

/-- `collect_interest_over_time` (lines 105-179).  The `geo_mapping` of
lines 110-118 only shapes the request parameters and has no effect on the
result record, so it is not modelled; `fetch` is the outcome of the API
call. -/
def collect_interest_over_time (cfg : Config) (fetch : Except String InterestResponse)
    (keywords : List String) (region_code region_name now : String) : InterestResult :=
  match fetch with
  | .error e =>
      { region_name := region_name
        region_code := region_code
        collection_time := now
        keywords := none
        timeframe := none
        interest_over_time := none
        related_topics := none
        related_queries := none
        source := "SerpAPI Google Trends"
        error := some e }
  | .ok results =>
      { region_name := region_name
        region_code := region_code
        collection_time := now
        keywords := some keywords
        timeframe := some (cfg.timeframe.getD "today 3-m")
        interest_over_time := some
          (match results.interest_over_time with
           | none => []
           | some sec => interestOuter keywords (sec.timeline_data.getD []))
        related_topics := some
          (match results.related_topics with
           | none => []
           | some m => copyRelated keywords m)
        related_queries := some
          (match results.related_queries with
           | none => []
           | some m => copyRelated keywords m)
        source := "SerpAPI Google Trends"
        error := none }

/-! ## Helper lemmas -/

/-- `collect_trending_searches` writes its `region_name` argument into the
result on every path. -/
theorem collect_trending_searches_name (cfg : Config) (fetch : Except String RawResponse)
    (code name now : String) :
    (collect_trending_searches cfg fetch code name now).region_name = name := by
  cases fetch with
  | error e => rfl
  | ok results => cases h : results.trending_searches <;>
      simp [collect_trending_searches, h]

/-- `collect_trending_searches` writes its `region_code` argument into the
result on every path. -/
theorem collect_trending_searches_code (cfg : Config) (fetch : Except String RawResponse)
    (code name now : String) :
    (collect_trending_searches cfg fetch code name now).region_code = code := by
  cases fetch with
  | error e => rfl
  | ok results => cases h : results.trending_searches <;>
      simp [collect_trending_searches, h]

/-! ## Concrete fixtures used by witnesses -/

/-- A sample configuration: trending collection enabled with `count = 2`. -/
def sampleCfg : Config :=
  { serpapi_key := "key"
    keywords := some ["ai"]
    regions := some [⟨"Poland", "PL"⟩]
    timeframe := none
    trending_searches := some { enabled := some true, count := some 2 }
    output_file := none }

/-- The trending items of the spec's worked example:
`[{"query":"a","search_volume":10},{"query":"b"},{"query":"c"}]`. -/
def sampleTrends : List RawTrend :=
  [ { query := some "a", search_volume := some 10, increase_percentage := none
      active := none, categories := none, trend_breakdown := none
      start_timestamp := none }
  , { query := some "b", search_volume := none, increase_percentage := none
      active := none, categories := none, trend_breakdown := none
      start_timestamp := none }
  , { query := some "c", search_volume := none, increase_percentage := none
      active := none, categories := none, trend_breakdown := none
      start_timestamp := none } ]

/-- The raw response of the spec's worked example. -/
def sampleResp : RawResponse :=
  { trending_searches := some sampleTrends
    error := none }

/-- A sample configuration with two regions and trending enabled. -/
def sampleCfg2 : Config :=
  { serpapi_key := "key"
    keywords := some ["ai"]
    regions := some [⟨"Poland", "PL"⟩, ⟨"United States", "US"⟩]
    timeframe := none
    trending_searches := some { enabled := some true, count := none }
    output_file := none }

/-- A fetch outcome map whose call for region code `PL` raises and whose
other calls succeed with an empty trending list. -/
def sampleFetchFail : String → Except String RawResponse := fun code =>
  if code = "PL" then .error "boom" else .ok { trending_searches := some [], error := none }

/-! ## Claims -/

/-- C10: every result of the non-exception path of
`collect_trending_searches` carries the constant `note` field
`"Global trending searches (region-specific may not be available)"`,
whether or not the response contained trending data, while the
exception-branch result has no `note` key. -/
theorem collect_trending_searches_note (cfg : Config) (resp : RawResponse)
    (e code name now : String) :
    (collect_trending_searches cfg (.ok resp) code name now).note
      = some "Global trending searches (region-specific may not be available)" ∧
    (collect_trending_searches cfg (.error e) code name now).note = none := by
  refine ⟨?_, rfl⟩
  cases h : resp.trending_searches <;> simp [collect_trending_searches, h]

/-- C4: for a raw response without a `trending_searches` key, the result has
an empty `trending_searches` list, the fixed non-empty error message
`"Brak danych w odpowiedzi SerpAPI"`, and its `api_error` field is exactly
the raw response's `error` field. -/
theorem collect_trending_searches_no_data (cfg : Config) (resp : RawResponse)
    (code name now : String) (h : resp.trending_searches = none) :
    (collect_trending_searches cfg (.ok resp) code name now).trending_searches = some [] ∧
    (collect_trending_searches cfg (.ok resp) code name now).error
      = some "Brak danych w odpowiedzi SerpAPI" ∧
    "Brak danych w odpowiedzi SerpAPI" ≠ "" ∧
    (collect_trending_searches cfg (.ok resp) code name now).api_error = resp.error := by
  refine ⟨?_, ?_, by decide, ?_⟩ <;> simp [collect_trending_searches, h]

/-- Witness for C4 at a concrete response carrying an API `error` field. -/
theorem collect_trending_searches_no_data_witness :
    (collect_trending_searches sampleCfg (.ok ⟨none, some "quota"⟩) "PL" "Poland" "t").trending_searches
      = some [] ∧
    (collect_trending_searches sampleCfg (.ok ⟨none, some "quota"⟩) "PL" "Poland" "t").error
      = some "Brak danych w odpowiedzi SerpAPI" ∧
    "Brak danych w odpowiedzi SerpAPI" ≠ "" ∧
    (collect_trending_searches sampleCfg (.ok ⟨none, some "quota"⟩) "PL" "Poland" "t").api_error
      = (⟨none, some "quota"⟩ : RawResponse).error :=
  collect_trending_searches_no_data sampleCfg ⟨none, some "quota"⟩ "PL" "Poland" "t" rfl

/-- C2: for a raw response whose `trending_searches` list has length `M` and
configured count `K`, normalization yields exactly `min M K` records, in
response order, each missing field filled with its default
(`search_volume` 0, `increase_percentage` 0, `active` true, `categories`
empty, `related_queries` the `trend_breakdown` value or empty,
`start_timestamp` 0). -/
theorem collect_trending_searches_truncates (cfg : Config) (resp : RawResponse)
    (lst : List RawTrend) (code name now : String)
    (h : resp.trending_searches = some lst) :
    ∃ out : List TrendRecord,
      (collect_trending_searches cfg (.ok resp) code name now).trending_searches = some out ∧
      out.length = min lst.length (trendingCount cfg) ∧
      ∀ i, i < out.length →
        out.getD i default =
          { query := (lst.getD i default).query.getD ""
            search_volume := (lst.getD i default).search_volume.getD 0
            increase_percentage := (lst.getD i default).increase_percentage.getD 0
            active := (lst.getD i default).active.getD true
            categories := (lst.getD i default).categories.getD []
            related_queries := (lst.getD i default).trend_breakdown.getD []
            start_timestamp := (lst.getD i default).start_timestamp.getD 0 } := by
  refine ⟨(lst.take (trendingCount cfg)).map normalizeTrend, ?_, ?_, ?_⟩
  · simp [collect_trending_searches, h]
  · simp only [List.length_map, List.length_take]
    exact Nat.min_comm _ _
  · intro i hi
    simp only [List.length_map, List.length_take, Nat.lt_min] at hi
    have hil : i < lst.length := hi.2
    have hit : i < ((lst.take (trendingCount cfg)).map normalizeTrend).length := by
      simp [Nat.lt_min, hi.1, hi.2]
    rw [List.getD_eq_getElem _ _ hit, List.getD_eq_getElem _ _ hil]
    simp [normalizeTrend]

/-- Witness for C2 at the spec's worked example: response items
`a` (volume 10), `b`, `c` with count 2 give exactly the two records `a`, `b`,
the second with defaulted `search_volume = 0`. -/
theorem collect_trending_searches_truncates_witness :
    ∃ out : List TrendRecord,
      (collect_trending_searches sampleCfg (.ok sampleResp) "PL" "Poland" "t").trending_searches
        = some out ∧
      out.length = min sampleTrends.length (trendingCount sampleCfg) ∧
      ∀ i, i < out.length →
        out.getD i default =
          { query := (sampleTrends.getD i default).query.getD ""
            search_volume := (sampleTrends.getD i default).search_volume.getD 0
            increase_percentage := (sampleTrends.getD i default).increase_percentage.getD 0
            active := (sampleTrends.getD i default).active.getD true
            categories := (sampleTrends.getD i default).categories.getD []
            related_queries := (sampleTrends.getD i default).trend_breakdown.getD []
            start_timestamp := (sampleTrends.getD i default).start_timestamp.getD 0 } :=
  collect_trending_searches_truncates sampleCfg sampleResp sampleTrends "PL" "Poland" "t" rfl

/-- The aggregate that `collect_all_trends` returns when `keywords` is
`ks`, `regions` is `rs` and trending collection is enabled; used to name
the existential witness in proofs. -/
def enabledRun (cfg : Config) (fetch : String → Except String RawResponse)
    (now : String) (ks : List String) (rs : List Region) : CollectionRun :=
  { metadata :=
      { collection_time := now
        keywords := ks
        total_regions := rs.length
        timeframe := cfg.timeframe.getD "today 3-m"
        trending_searches_enabled := trendingEnabled cfg
        source := "SerpAPI Google Trends"
        api_usage_note := "Each request uses your SerpAPI quota" }
    trending_searches_data := rs.map (fun r =>
      collect_trending_searches cfg (fetch r.code) r.code r.name now) }

/-- C1: with trending collection enabled, a configured region list of
length `N` yields a run whose `trending_searches_data` has exactly `N`
elements, the `i`-th element's `region_code`/`region_name` equal to the
configured region at index `i`.  (In the model no region call can abort the
run: `collect_trending_searches` is total, so the proviso of the claim is
automatically met.) -/
theorem collect_all_trends_region_alignment (cfg : Config)
    (fetch : String → Except String RawResponse) (now : String)
    (ks : List String) (rs : List Region)
    (hk : cfg.keywords = some ks) (hr : cfg.regions = some rs)
    (he : trendingEnabled cfg = true) :
    ∃ run : CollectionRun,
      collect_all_trends cfg fetch now = .ok run ∧
      run.trending_searches_data.length = rs.length ∧
      ∀ i, i < rs.length →
        (run.trending_searches_data.getD i default).region_name = (rs.getD i default).name ∧
        (run.trending_searches_data.getD i default).region_code = (rs.getD i default).code := by
  refine ⟨enabledRun cfg fetch now ks rs, ?_, ?_, ?_⟩
  · simp only [collect_all_trends, hk, hr, he, if_pos, enabledRun]
  · simp [enabledRun]
  · intro i hi
    have hi' : i < (rs.map (fun r =>
        collect_trending_searches cfg (fetch r.code) r.code r.name now)).length := by
      simpa using hi
    simp only [enabledRun]
    rw [List.getD_eq_getElem _ _ hi', List.getD_eq_getElem _ _ hi]
    simp [collect_trending_searches_name, collect_trending_searches_code]

/-- Witness for C1 at the two-region sample configuration (one region's
call raising), via the theorem. -/
theorem collect_all_trends_region_alignment_witness :
    ∃ run : CollectionRun,
      collect_all_trends sampleCfg2 sampleFetchFail "t" = .ok run ∧
      run.trending_searches_data.length = [(⟨"Poland", "PL"⟩ : Region), ⟨"United States", "US"⟩].length ∧
      ∀ i, i < [(⟨"Poland", "PL"⟩ : Region), ⟨"United States", "US"⟩].length →
        (run.trending_searches_data.getD i default).region_name
          = ([(⟨"Poland", "PL"⟩ : Region), ⟨"United States", "US"⟩].getD i default).name ∧
        (run.trending_searches_data.getD i default).region_code
          = ([(⟨"Poland", "PL"⟩ : Region), ⟨"United States", "US"⟩].getD i default).code :=
  collect_all_trends_region_alignment sampleCfg2 sampleFetchFail "t"
    ["ai"] [⟨"Poland", "PL"⟩, ⟨"United States", "US"⟩] rfl rfl rfl

/-- C3: a region whose API call raises is absorbed: the orchestrator still
produces one entry per configured region (so subsequent regions are
processed), every entry is the per-region result of
`collect_trending_searches`, and for a region whose call raised, the entry
is the record whose only populated fields are `region_name`, `region_code`,
`error` (the exception message), `collection_time` and `source` — the
remaining keys (`trending_searches`, `note`, `api_error`) are absent. -/
theorem collect_all_trends_contains_failures (cfg : Config)
    (fetch : String → Except String RawResponse) (now : String)
    (ks : List String) (rs : List Region)
    (hk : cfg.keywords = some ks) (hr : cfg.regions = some rs)
    (he : trendingEnabled cfg = true) :
    ∃ run : CollectionRun,
      collect_all_trends cfg fetch now = .ok run ∧
      run.trending_searches_data.length = rs.length ∧
      ∀ i, i < rs.length →
        run.trending_searches_data.getD i default =
          collect_trending_searches cfg (fetch (rs.getD i default).code)
            (rs.getD i default).code (rs.getD i default).name now ∧
        ∀ msg, fetch (rs.getD i default).code = .error msg →
          run.trending_searches_data.getD i default =
            { region_name := (rs.getD i default).name
              region_code := (rs.getD i default).code
              collection_time := now
              trending_searches := none
              source := "SerpAPI Google Trends"
              note := none
              error := some msg
              api_error := none } := by
  refine ⟨enabledRun cfg fetch now ks rs, ?_, ?_, ?_⟩
  · simp only [collect_all_trends, hk, hr, he, if_pos, enabledRun]
  · simp [enabledRun]
  · intro i hi
    have hi' : i < (rs.map (fun r =>
        collect_trending_searches cfg (fetch r.code) r.code r.name now)).length := by
      simpa using hi
    constructor
    · simp only [enabledRun]
      rw [List.getD_eq_getElem _ _ hi', List.getD_eq_getElem _ _ hi]
      simp
    · intro msg hmsg
      simp only [enabledRun]
      rw [List.getD_eq_getElem _ _ hi] at hmsg
      rw [List.getD_eq_getElem _ _ hi', List.getD_eq_getElem _ _ hi]
      simp only [List.getElem_map]
      rw [hmsg]
      rfl

/-- Witness for C3: with two regions and the `PL` call raising `"boom"`,
both regions still get an entry, and the `PL` entry is the five-field error
record. -/
theorem collect_all_trends_contains_failures_witness :
    ∃ run : CollectionRun,
      collect_all_trends sampleCfg2 sampleFetchFail "t" = .ok run ∧
      run.trending_searches_data.length
        = [(⟨"Poland", "PL"⟩ : Region), ⟨"United States", "US"⟩].length ∧
      ∀ i, i < [(⟨"Poland", "PL"⟩ : Region), ⟨"United States", "US"⟩].length →
        run.trending_searches_data.getD i default =
          collect_trending_searches sampleCfg2
            (sampleFetchFail ([(⟨"Poland", "PL"⟩ : Region), ⟨"United States", "US"⟩].getD i default).code)
            ([(⟨"Poland", "PL"⟩ : Region), ⟨"United States", "US"⟩].getD i default).code
            ([(⟨"Poland", "PL"⟩ : Region), ⟨"United States", "US"⟩].getD i default).name "t" ∧
        ∀ msg,
          sampleFetchFail ([(⟨"Poland", "PL"⟩ : Region), ⟨"United States", "US"⟩].getD i default).code
            = .error msg →
          run.trending_searches_data.getD i default =
            { region_name := ([(⟨"Poland", "PL"⟩ : Region), ⟨"United States", "US"⟩].getD i default).name
              region_code := ([(⟨"Poland", "PL"⟩ : Region), ⟨"United States", "US"⟩].getD i default).code
              collection_time := "t"
              trending_searches := none
              source := "SerpAPI Google Trends"
              note := none
              error := some msg
              api_error := none } :=
  collect_all_trends_contains_failures sampleCfg2 sampleFetchFail "t"
    ["ai"] [⟨"Poland", "PL"⟩, ⟨"United States", "US"⟩] rfl rfl rfl

/-- Two sample trend records: the first carries a named category, the
second carries none. -/
def sampleTrendRecords : List TrendRecord :=
  [ { query := "a", search_volume := 10, increase_percentage := 5
      active := true, categories := [⟨some "Sports"⟩]
      related_queries := [], start_timestamp := 0 }
  , { query := "b", search_volume := 0, increase_percentage := 0
      active := true, categories := []
      related_queries := [], start_timestamp := 0 } ]

/-- A sample run used by the witnesses of the simplified-projection
claims: one region with the two sample trend records. -/
def sampleRun : CollectionRun :=
  { metadata :=
      { collection_time := "t0"
        keywords := ["ai"]
        total_regions := 1
        timeframe := "today 3-m"
        trending_searches_enabled := true
        source := "SerpAPI Google Trends"
        api_usage_note := "Each request uses your SerpAPI quota" }
    trending_searches_data :=
      [ { region_name := "Poland"
          region_code := "PL"
          collection_time := "t1"
          trending_searches := some sampleTrendRecords
          source := "SerpAPI Google Trends"
          note := some "Global trending searches (region-specific may not be available)"
          error := none
          api_error := none } ] }

/-- `List.getD` at an in-bounds index commutes with `List.map`. -/
theorem getD_map_of_lt {α β : Type} [Inhabited α] [Inhabited β]
    (f : α → β) (l : List α) (i : Nat) (h : i < l.length) :
    (l.map f).getD i default = f (l.getD i default) := by
  rw [List.getD_eq_getElem _ _ (by simpa using h), List.getD_eq_getElem _ _ h,
    List.getElem_map]

/-- The simplified category of the `(i, j)`-th query is `simpleCategory` of
the `(i, j)`-th source trend record's `categories`. -/
theorem create_simple_format_category_eq (run : CollectionRun) (i j : Nat)
    (hi : i < run.trending_searches_data.length)
    (hj : j < ((run.trending_searches_data.getD i default).trending_searches.getD []).length) :
    (((create_simple_format run).regions.getD i default).trending_queries.getD j default).category
      = simpleCategory
          ((((run.trending_searches_data.getD i default).trending_searches.getD []).getD j default).categories) := by
  have h1 : (create_simple_format run).regions.getD i default
      = simpleRegionOf (run.trending_searches_data.getD i default) :=
    getD_map_of_lt simpleRegionOf run.trending_searches_data i hi
  rw [h1]
  have h2 : (simpleRegionOf (run.trending_searches_data.getD i default)).trending_queries.getD j default
      = simpleQueryOf
          (((run.trending_searches_data.getD i default).trending_searches.getD []).getD j default) :=
    getD_map_of_lt simpleQueryOf _ j hj
  rw [h2]
  rfl

/-- C5: in the simplified projection, each query's `category` is the name
of the first entry of the source record's `categories` when that list is
non-empty (the entry carrying a `name` key), and the sentinel `"Unknown"`
when the list is empty. -/
theorem create_simple_format_category (run : CollectionRun) (i j : Nat)
    (hi : i < run.trending_searches_data.length)
    (hj : j < ((run.trending_searches_data.getD i default).trending_searches.getD []).length) :
    ((((run.trending_searches_data.getD i default).trending_searches.getD []).getD j default).categories = [] →
      (((create_simple_format run).regions.getD i default).trending_queries.getD j default).category
        = "Unknown") ∧
    (∀ c rest n,
      (((run.trending_searches_data.getD i default).trending_searches.getD []).getD j default).categories
        = c :: rest →
      c.name = some n →
      (((create_simple_format run).regions.getD i default).trending_queries.getD j default).category
        = n) := by
  constructor
  · intro hcat
    rw [create_simple_format_category_eq run i j hi hj, hcat]
    rfl
  · intro c rest n hcat hname
    rw [create_simple_format_category_eq run i j hi hj, hcat]
    simp [simpleCategory, hname]

/-- Witness for C5 on `sampleRun`: the first trend's category is taken from
its first `categories` entry, the second trend's is the sentinel. -/
theorem create_simple_format_category_witness :
    (((create_simple_format sampleRun).regions.getD 0 default).trending_queries.getD 0 default).category
      = "Sports" ∧
    (((create_simple_format sampleRun).regions.getD 0 default).trending_queries.getD 1 default).category
      = "Unknown" :=
  ⟨(create_simple_format_category sampleRun 0 0 (by decide) (by decide)).2
      ⟨some "Sports"⟩ [] "Sports" (by decide) (by decide),
   (create_simple_format_category sampleRun 0 1 (by decide) (by decide)).1 (by decide)⟩

/-- C6: the simplified projection of a run with `K` region results has
exactly `K` region entries in the same order; each entry keeps the source
record's `region_name`/`region_code`, its `trending_queries` has the same
length as the source record's `trending_searches`, and each query retains
exactly the fields `query`, `search_volume`, `increase_percentage` and the
derived `category` (the `SimpleRun`/`SimpleRegion`/`SimpleQuery` types
carry no other fields beyond the projection's `collection_time`). -/
theorem create_simple_format_shape (run : CollectionRun) :
    (create_simple_format run).collection_time = run.metadata.collection_time ∧
    (create_simple_format run).regions.length = run.trending_searches_data.length ∧
    ∀ i, i < run.trending_searches_data.length →
      ((create_simple_format run).regions.getD i default).region_name
        = (run.trending_searches_data.getD i default).region_name ∧
      ((create_simple_format run).regions.getD i default).region_code
        = (run.trending_searches_data.getD i default).region_code ∧
      ∀ l, (run.trending_searches_data.getD i default).trending_searches = some l →
        ((create_simple_format run).regions.getD i default).trending_queries.length
          = l.length ∧
        ∀ j, j < l.length →
          ((create_simple_format run).regions.getD i default).trending_queries.getD j default =
            { query := (l.getD j default).query
              search_volume := (l.getD j default).search_volume
              increase_percentage := (l.getD j default).increase_percentage
              category := simpleCategory (l.getD j default).categories } := by
  refine ⟨rfl, by simp [create_simple_format], ?_⟩
  intro i hi
  have h1 : (create_simple_format run).regions.getD i default
      = simpleRegionOf (run.trending_searches_data.getD i default) :=
    getD_map_of_lt simpleRegionOf run.trending_searches_data i hi
  rw [h1]
  refine ⟨rfl, rfl, ?_⟩
  intro l hl
  simp only [simpleRegionOf, hl, Option.getD_some]
  refine ⟨by simp, ?_⟩
  intro j hj
  rw [getD_map_of_lt simpleQueryOf l j hj]
  rfl

/-- Witness for C6 on `sampleRun` via the theorem: the single region keeps
its identifiers and both of its trend records. -/
theorem create_simple_format_shape_witness :
    ((create_simple_format sampleRun).regions.getD 0 default).region_name
      = (sampleRun.trending_searches_data.getD 0 default).region_name ∧
    ((create_simple_format sampleRun).regions.getD 0 default).region_code
      = (sampleRun.trending_searches_data.getD 0 default).region_code ∧
    ((create_simple_format sampleRun).regions.getD 0 default).trending_queries.length
      = sampleTrendRecords.length :=
  ⟨((create_simple_format_shape sampleRun).2.2 0 (by decide)).1,
   ((create_simple_format_shape sampleRun).2.2 0 (by decide)).2.1,
   (((create_simple_format_shape sampleRun).2.2 0 (by decide)).2.2
      sampleTrendRecords (by decide)).1⟩

/-- `List.isPrefixOf` is reflexive. -/
theorem isPrefixOf_self (l : List Char) : l.isPrefixOf l = true := by
  induction l with
  | nil => rfl
  | cons c cs ih => simp [List.isPrefixOf, ih]

/-- Replacement on `base ++ pat` when `pat` matches nowhere inside `base`:
the single trailing occurrence is replaced, so `rep` is substituted for the
final `pat`. -/
theorem replaceAux_append (pat rep : List Char) (hp : pat ≠ []) :
    ∀ (base : List Char) (fuel : Nat), (base ++ pat).length ≤ fuel →
      (∀ i, i < base.length → pat.isPrefixOf ((base ++ pat).drop i) = false) →
      replaceAux pat rep fuel (base ++ pat) = base ++ rep := by
  intro base
  induction base with
  | nil =>
    intro fuel hfuel _
    cases pat with
    | nil => exact absurd rfl hp
    | cons p ps =>
      cases fuel with
      | zero => simp at hfuel
      | succ f =>
        have hd : ps.drop ((p :: ps).length - 1) = [] := by simp
        simp only [List.nil_append, replaceAux, isPrefixOf_self, if_true, hd]
        simp [replaceAux]
  | cons b bs ih =>
    intro fuel hfuel hno
    cases fuel with
    | zero => simp at hfuel
    | succ f =>
      have h0 : pat.isPrefixOf (b :: (bs ++ pat)) = false := by
        have := hno 0 (by simp)
        simpa using this
      simp only [List.cons_append, replaceAux, List.append_eq]
      rw [h0]
      simp only [Bool.false_eq_true, if_false]
      congr 1
      apply ih f
      · simp only [List.cons_append, List.length_cons] at hfuel
        omega
      · intro i hi
        have := hno (i + 1) (by simpa using Nat.succ_lt_succ hi)
        simpa using this

/-- C7 counterexample: on the full output path `out.txt`, which contains no
`.json`, the derived simplified path is the very same path — refuting "the
simplified path always differs from the full path". -/
theorem simple_filename_counterexample :
    simple_filename "out.txt".toList = "out.txt".toList := by decide

/-- C7 amended: the simplified path is the full path with every occurrence
of `.json` replaced by `_simple.json`; when the path ends in `.json` and
the pattern matches at no earlier position, this inserts the suffix
`_simple` immediately before the extension (a path without `.json` is
returned unchanged and then coincides with the full path). -/
theorem simple_filename_inserts_before_extension (base : List Char)
    (h : ∀ i, i < base.length →
      (".json".toList).isPrefixOf ((base ++ ".json".toList).drop i) = false) :
    simple_filename (base ++ ".json".toList) = base ++ "_simple.json".toList :=
  replaceAux_append ".json".toList "_simple.json".toList (by decide) base
    (base ++ ".json".toList).length le_rfl h

/-- Witness for the amended C7 at the default output path
`trends_data.json`, derived to `trends_data_simple.json` by the theorem. -/
theorem simple_filename_inserts_before_extension_witness :
    simple_filename ("trends_data".toList ++ ".json".toList)
      = "trends_data".toList ++ "_simple.json".toList :=
  simple_filename_inserts_before_extension "trends_data".toList (by decide)

/-- A fetch outcome map whose calls all succeed with an empty trending
list. -/
def sampleFetchOk : String → Except String RawResponse := fun _ =>
  .ok { trending_searches := some [], error := none }

/-- A configuration containing only `serpapi_key`, `keywords` and
`regions`; every optional key is absent. -/
def minimalCfg : Config :=
  { serpapi_key := "key"
    keywords := some ["ai"]
    regions := some [⟨"Poland", "PL"⟩]
    timeframe := none
    trending_searches := none
    output_file := none }

/-- The aggregate `collect_all_trends` returns when `keywords` is `ks` and
`regions` is `rs`, for any trending toggle; used to name existential
witnesses. -/
def collectedRun (cfg : Config) (fetch : String → Except String RawResponse)
    (now : String) (ks : List String) (rs : List Region) : CollectionRun :=
  { metadata :=
      { collection_time := now
        keywords := ks
        total_regions := rs.length
        timeframe := cfg.timeframe.getD "today 3-m"
        trending_searches_enabled := trendingEnabled cfg
        source := "SerpAPI Google Trends"
        api_usage_note := "Each request uses your SerpAPI quota" }
    trending_searches_data :=
      if trendingEnabled cfg then
        rs.map (fun r => collect_trending_searches cfg (fetch r.code) r.code r.name now)
      else [] }

/-- C8 counterexample: a settings mapping that has `api_key` and `regions`
but no `keywords` makes `collect_all_trends` raise a `KeyError` instead of
proceeding with a default — refuting "the keys keywords and regions are
optional". -/
theorem collect_all_trends_requires_keywords :
    collect_all_trends
      { serpapi_key := "key"
        keywords := none
        regions := some [⟨"Poland", "PL"⟩]
        timeframe := none
        trending_searches := none
        output_file := none }
      sampleFetchOk "t" = .error "KeyError: keywords" := rfl

/-- C8 amended: `timeframe`, `trending_searches.enabled`,
`trending_searches.count` and `output_file` are optional — the run proceeds
when they are absent, using the defaults — but `keywords` and `regions` are
required: the run fails with a `KeyError` when either is absent. -/
theorem collect_all_trends_optional_keys (cfg : Config)
    (fetch : String → Except String RawResponse) (now : String) :
    (∀ ks rs, cfg.keywords = some ks → cfg.regions = some rs →
      ∃ run : CollectionRun,
        collect_all_trends cfg fetch now = .ok run ∧
        run.metadata.timeframe = cfg.timeframe.getD "today 3-m" ∧
        run.metadata.trending_searches_enabled = trendingEnabled cfg) ∧
    (cfg.keywords = none →
      collect_all_trends cfg fetch now = .error "KeyError: keywords") ∧
    (∀ ks, cfg.keywords = some ks → cfg.regions = none →
      collect_all_trends cfg fetch now = .error "KeyError: regions") := by
  refine ⟨?_, ?_, ?_⟩
  · intro ks rs hk hr
    exact ⟨collectedRun cfg fetch now ks rs,
      by simp only [collect_all_trends, hk, hr]; rfl, rfl, rfl⟩
  · intro hk
    simp only [collect_all_trends, hk]
  · intro ks hk hr
    simp only [collect_all_trends, hk, hr]

/-- Witness for the amended C8: with all optional keys absent the run
succeeds, `timeframe` defaulting to `today 3-m` and trending collection
defaulting to disabled. -/
theorem collect_all_trends_optional_keys_witness :
    ∃ run : CollectionRun,
      collect_all_trends minimalCfg sampleFetchOk "t" = .ok run ∧
      run.metadata.timeframe = minimalCfg.timeframe.getD "today 3-m" ∧
      run.metadata.trending_searches_enabled = trendingEnabled minimalCfg :=
  (collect_all_trends_optional_keys minimalCfg sampleFetchOk "t").1
    ["ai"] [⟨"Poland", "PL"⟩] rfl rfl

/-- Looking up `k` after updating it in place finds the new value. -/
theorem lookup_mapUpdate_of_contains {α : Type} (k : String) (v : α) :
    ∀ d : List (String × α), (d.map Prod.fst).contains k = true →
      (d.map (fun p => if p.1 = k then (k, v) else p)).lookup k = some v := by
  intro d
  induction d with
  | nil => intro h; simp at h
  | cons p ds ih =>
    intro h
    obtain ⟨pk, pv⟩ := p
    by_cases hp : pk = k
    · subst hp
      simp [List.lookup_cons]
    · have hk : (k == pk) = false := beq_eq_false_iff_ne.mpr fun e => hp e.symm
      have h' : (ds.map Prod.fst).contains k = true := by
        simp only [List.map_cons, List.contains_cons] at h
        rcases Bool.or_eq_true_iff.mp h with h1 | h1
        · exact absurd (beq_iff_eq.mp h1).symm hp
        · exact h1
      simp only [List.map_cons, if_neg hp, List.lookup_cons, hk]
      exact ih h'

/-- Looking up a key absent from `d` passes through to the tail of an
append. -/
theorem lookup_append_of_not_contains {α : Type} (k : String) :
    ∀ d : List (String × α), (d.map Prod.fst).contains k = false →
      ∀ tail : List (String × α), (d ++ tail).lookup k = tail.lookup k := by
  intro d
  induction d with
  | nil => intro _ tail; rfl
  | cons p ds ih =>
    intro h tail
    obtain ⟨pk, pv⟩ := p
    simp only [List.map_cons, List.contains_cons, Bool.or_eq_false_iff] at h
    simp only [List.cons_append, List.lookup_cons, h.1]
    exact ih h.2 tail

/-- After `d[k] = v`, looking up `k` yields `v`. -/
theorem lookup_dictInsert_self {α : Type} (d : List (String × α)) (k : String) (v : α) :
    (dictInsert d k v).lookup k = some v := by
  unfold dictInsert
  by_cases hc : (d.map Prod.fst).contains k = true
  · rw [if_pos hc]
    exact lookup_mapUpdate_of_contains k v d hc
  · rw [if_neg hc]
    rw [lookup_append_of_not_contains k d (Bool.not_eq_true _ ▸ hc)]
    simp [List.lookup_cons]

/-- Updating key `k` in place leaves every other key's lookup unchanged. -/
theorem lookup_mapUpdate_ne {α : Type} (k k' : String) (v : α) (h : k' ≠ k) :
    ∀ d : List (String × α),
      (d.map (fun p => if p.1 = k then (k, v) else p)).lookup k' = d.lookup k' := by
  intro d
  induction d with
  | nil => rfl
  | cons p ds ih =>
    obtain ⟨pk, pv⟩ := p
    by_cases hp : pk = k
    · subst hp
      have hk' : (k' == pk) = false := beq_eq_false_iff_ne.mpr h
      simp [List.lookup_cons, hk', ih]
    · simp only [List.map_cons, if_neg hp, List.lookup_cons]
      cases hkp : (k' == pk) with
      | true => rfl
      | false => exact ih

/-- Appending the fresh pair `(k, v)` leaves every other key's lookup
unchanged. -/
theorem lookup_append_single_ne {α : Type} (k k' : String) (v : α) (h : k' ≠ k) :
    ∀ d : List (String × α), (d ++ [(k, v)]).lookup k' = d.lookup k' := by
  have hk : (k' == k) = false := beq_eq_false_iff_ne.mpr h
  intro d
  induction d with
  | nil => simp [List.lookup_cons, hk]
  | cons p ds ih =>
    obtain ⟨pk, pv⟩ := p
    simp only [List.cons_append, List.lookup_cons]
    cases hkp : (k' == pk) with
    | true => rfl
    | false => exact ih

/-- After `d[k] = v`, looking up any other key is unchanged. -/
theorem lookup_dictInsert_ne {α : Type} (d : List (String × α)) (k k' : String) (v : α)
    (h : k' ≠ k) :
    (dictInsert d k v).lookup k' = d.lookup k' := by
  unfold dictInsert
  split
  · exact lookup_mapUpdate_ne k k' v h d
  · exact lookup_append_single_ne k k' v h d

/-- Lookup through the verbatim-copy fold: a keyword present in both the
keyword list and the source sub-mapping keeps its source payload. -/
theorem copyRelated_lookup_aux {m : List (String × String)} {kw v : String}
    (hm : m.lookup kw = some v) :
    ∀ (ks : List String) (d : List (String × String)),
      kw ∈ ks ∨ d.lookup kw = some v →
      (ks.foldl (fun d keyword =>
        match m.lookup keyword with
        | some v => dictInsert d keyword v
        | none => d) d).lookup kw = some v := by
  intro ks
  induction ks with
  | nil =>
    intro d h
    rcases h with h | h
    · exact absurd h (List.not_mem_nil kw)
    · exact h
  | cons a as ih =>
    intro d h
    simp only [List.foldl_cons]
    apply ih
    rcases h with hmem | hlook
    · rcases List.mem_cons.mp hmem with rfl | hmem'
      · right
        rw [hm]
        exact lookup_dictInsert_self d kw v
      · left
        exact hmem'
    · right
      cases hma : m.lookup a with
      | none => exact hlook
      | some w =>
        by_cases hak : kw = a
        · subst hak
          rw [hm] at hma
          cases hma
          exact lookup_dictInsert_self d kw v
        · rw [lookup_dictInsert_ne d a kw w hak]
          exact hlook

/-- `copyRelated` copies a present keyword's payload through verbatim. -/
theorem copyRelated_lookup (ks : List String) (m : List (String × String))
    (kw v : String) (hk : kw ∈ ks) (hm : m.lookup kw = some v) :
    (copyRelated ks m).lookup kw = some v :=
  copyRelated_lookup_aux hm ks [] (Or.inl hk)

/-- The per-date mapping the spec describes: the value list zipped against
the keyword list positionally, as a dictionary fold. -/
def zipInterest (ks : List String) (vals : List TimelineValue) : List (String × Int) :=
  (ks.zip vals).foldl (fun d p => dictInsert d p.1 (p.2.value.getD 0)) []

/-- The indexed inner loop of `collect_interest_over_time` computes exactly
the positional zip of the keyword list against the remaining values. -/
theorem interestInnerGo_eq_zip (vals : List TimelineValue) :
    ∀ (ks : List String) (i : Nat) (d : List (String × Int)),
      interestInnerGo vals i ks d
        = (ks.zip (vals.drop i)).foldl (fun d p => dictInsert d p.1 (p.2.value.getD 0)) d := by
  intro ks
  induction ks with
  | nil => intro i d; simp [interestInnerGo]
  | cons a as ih =>
    intro i d
    by_cases h : i < vals.length
    · have hdrop : vals.drop i = vals[i] :: vals.drop (i + 1) :=
        List.drop_eq_getElem_cons h
      rw [interestInnerGo, dif_pos h, ih (i + 1), hdrop]
      simp only [List.zip_cons_cons, List.foldl_cons, List.get_eq_getElem]
    · have hdrop : vals.drop i = [] := List.drop_eq_nil_of_le (Nat.le_of_not_lt h)
      have hdrop' : vals.drop (i + 1) = [] :=
        List.drop_eq_nil_of_le (by have := Nat.le_of_not_lt h; omega)
      rw [interestInnerGo, dif_neg h, ih (i + 1), hdrop, hdrop']
      simp

/-- The source's enumerate-and-bound-check inner loop equals the spec's
positional zip. -/
theorem interestInner_eq_zipInterest (ks : List String) (vals : List TimelineValue) :
    interestInner ks vals = zipInterest ks vals := by
  unfold interestInner zipInterest
  rw [interestInnerGo_eq_zip]
  rfl

/-- The per-date mapping exactly as the claim's sentence describes it
(clearly named second definition, following the spec's words for
comparison): only dates whose value list is empty are skipped; a date with
a non-empty value list is always entered, keyed by its (possibly empty)
date string. -/
def claimInterestOuter (ks : List String) (timeline : List TimelinePoint) :
    List (String × List (String × Int)) :=
  timeline.foldl (fun out p =>
    if p.values.getD [] ≠ [] then
      dictInsert out (p.date.getD "") (zipInterest ks (p.values.getD []))
    else out) []

/-- A raw interest response whose single timeline point has an empty date
string but a non-empty value list. -/
def emptyDateResp : InterestResponse :=
  { interest_over_time := some { timeline_data := some [⟨some "", some [⟨some 5⟩]⟩] }
    related_topics := none
    related_queries := none }

/-- C9 counterexample: on a timeline point with an empty date string and a
non-empty value list, the code produces an empty mapping (the point is
skipped by the `if date_str and values` truthiness test), while the
mapping described by the claim — which only skips dates whose value list is
empty — contains an entry for it. -/
theorem collect_interest_over_time_counterexample :
    (collect_interest_over_time minimalCfg (.ok emptyDateResp) ["k"] "PL" "Poland" "t").interest_over_time
      = some [] ∧
    claimInterestOuter ["k"] [⟨some "", some [⟨some 5⟩]⟩]
      = [("", [("k", (5 : Int))])] := by
  constructor <;> rfl

/-- C9 amended: interest-over-time normalization builds the per-date
mapping by zipping each date's value list against the keyword list
positionally (values beyond the keyword count are dropped, keywords beyond
the value list are skipped), skipping dates whose value list is empty or
whose date string is empty or missing; the `related_topics` and
`related_queries` sub-mappings are copied through verbatim, keyed by
keyword, whenever present for that keyword. -/
theorem collect_interest_over_time_spec (cfg : Config) (results : InterestResponse)
    (ks : List String) (code name now : String)
    (sec : InterestSection) (timeline : List TimelinePoint)
    (hs : results.interest_over_time = some sec)
    (ht : sec.timeline_data = some timeline) :
    (collect_interest_over_time cfg (.ok results) ks code name now).interest_over_time
      = some (timeline.foldl (fun out p =>
          if p.date.getD "" ≠ "" ∧ p.values.getD [] ≠ [] then
            dictInsert out (p.date.getD "") (zipInterest ks (p.values.getD []))
          else out) []) ∧
    (∀ m kw v, results.related_topics = some m → kw ∈ ks → m.lookup kw = some v →
      ((collect_interest_over_time cfg (.ok results) ks code name now).related_topics.getD []).lookup kw
        = some v) ∧
    (∀ m kw v, results.related_queries = some m → kw ∈ ks → m.lookup kw = some v →
      ((collect_interest_over_time cfg (.ok results) ks code name now).related_queries.getD []).lookup kw
        = some v) := by
  refine ⟨?_, ?_, ?_⟩
  · simp only [collect_interest_over_time, hs, ht]
    unfold interestOuter
    congr 2
    funext out p
    simp only [interestInner_eq_zipInterest]
  · intro m kw v hm hk hv
    simp only [collect_interest_over_time, hm, Option.getD_some]
    exact copyRelated_lookup ks m kw v hk hv
  · intro m kw v hm hk hv
    simp only [collect_interest_over_time, hm, Option.getD_some]
    exact copyRelated_lookup ks m kw v hk hv

/-- A raw interest response with one dated timeline point and both related
sub-mappings present for keyword `k`. -/
def datedResp : InterestResponse :=
  { interest_over_time := some
      { timeline_data := some [⟨some "2024-01-01", some [⟨some 7⟩]⟩] }
    related_topics := some [("k", "topic payload")]
    related_queries := some [("k", "query payload")] }

/-- Witness for the amended C9 at a concrete response via the theorem. -/
theorem collect_interest_over_time_spec_witness :
    (collect_interest_over_time minimalCfg (.ok datedResp) ["k"] "PL" "Poland" "t").interest_over_time
      = some [("2024-01-01", [("k", (7 : Int))])] ∧
    ((collect_interest_over_time minimalCfg (.ok datedResp) ["k"] "PL" "Poland" "t").related_topics.getD []).lookup "k"
      = some "topic payload" ∧
    ((collect_interest_over_time minimalCfg (.ok datedResp) ["k"] "PL" "Poland" "t").related_queries.getD []).lookup "k"
      = some "query payload" := by
  refine ⟨?_, ?_, ?_⟩
  · rw [(collect_interest_over_time_spec minimalCfg datedResp ["k"] "PL" "Poland" "t"
      { timeline_data := some [⟨some "2024-01-01", some [⟨some 7⟩]⟩] }
      [⟨some "2024-01-01", some [⟨some 7⟩]⟩] rfl rfl).1]
    rfl
  · exact (collect_interest_over_time_spec minimalCfg datedResp ["k"] "PL" "Poland" "t"
      { timeline_data := some [⟨some "2024-01-01", some [⟨some 7⟩]⟩] }
      [⟨some "2024-01-01", some [⟨some 7⟩]⟩] rfl rfl).2.1
      [("k", "topic payload")] "k" "topic payload" rfl (by decide) rfl
  · exact (collect_interest_over_time_spec minimalCfg datedResp ["k"] "PL" "Poland" "t"
      { timeline_data := some [⟨some "2024-01-01", some [⟨some 7⟩]⟩] }
      [⟨some "2024-01-01", some [⟨some 7⟩]⟩] rfl rfl).2.2
      [("k", "query payload")] "k" "query payload" rfl (by decide) rfl

end TrendsCollector
